import Mathlib

/-!
Verification development for the kubedock translation and consistency layer.

The Go sources are embedded shallowly: entities are Lean structures, the
in-process entity store is a record of lists, HTTP handlers become pure
functions from a store state (plus the request parameters and the
orchestration-platform responses, passed as explicit arguments) to an HTTP
status code and the successor store state.  Side effects against the
orchestration platform are recorded explicitly (for example the
`backendCalled` flag of volume creation outcomes).
-/

namespace Kubedock

/-- HTTP status code 200, as written by `gin` for `http.StatusOK`. -/
def statusOK : Nat := 200

/-- HTTP status code 201 (`http.StatusCreated`). -/
def statusCreated : Nat := 201

/-- HTTP status code 204 (`http.StatusNoContent`). -/
def statusNoContent : Nat := 204

/-- HTTP status code 403 (`http.StatusForbidden`). -/
def statusForbidden : Nat := 403

/-- HTTP status code 404 (`http.StatusNotFound`). -/
def statusNotFound : Nat := 404

/-- HTTP status code 409 (`http.StatusConflict`). -/
def statusConflict : Nat := 409

/-- HTTP status code 500 (`http.StatusInternalServerError`). -/
def statusInternalServerError : Nat := 500

/-- Embedding of Go `strings.ToLower` restricted to the character-wise
mapping (sufficient for the ASCII alias material of this layer): lower-case
every character of the string. -/
def strToLower (s : String) : String := ⟨s.data.map Char.toLower⟩

/-- Embedding of a Go byte-slice truncation `s[:n]` at character level. -/
def strTake (s : String) (n : Nat) : String := ⟨s.data.take n⟩

/-- Volume entity, from `internal/model/types` (the `Volume` struct of
`src/unnamed/part_000`..`part_001`): identity, name, driver, labels and the
derived mount path.  The Go `map[string]string` of labels is embedded as an
association list. -/
structure Volume where
  id : String
  shortID : String
  name : String
  driver : String
  labels : List (String × String)
  mountpoint : String
deriving Repr, DecidableEq

/-- Network entity.  The Go type carries `ID`, `Name`, `Labels` and a derived
predicate `IsPredefined()`; the predicate's defining list of built-in
networks is not part of the sources under inspection, so its value is
carried as a field (the routes only ever branch on the boolean). -/
structure Network where
  id : String
  name : String
  labels : List (String × String)
  isPredefined : Bool
deriving Repr, DecidableEq

/-- Container entity, restricted to the fields the network routes read and
write: identity, name, the set of network IDs the container is a member of
(embedded as a list of keys of the Go `map[string]interface` set) and the
ordered alias list. -/
structure Container where
  id : String
  name : String
  networks : List String
  networkAliases : List String
deriving Repr, DecidableEq

/-- Modelled from the spec: `ConnectNetwork(networkID)` on a container adds
network membership and is idempotent — reconnecting is a no-op for
membership (the method body is not among the source files; the spec's §3
describes it). -/
def Container.ConnectNetwork (c : Container) (networkID : String) : Container :=
  if networkID ∈ c.networks then c
  else { c with networks := c.networks ++ [networkID] }

/-- Modelled from the spec: `DisconnectNetwork(networkID)` removes membership
and fails with a "not found" condition if the container was not a member
(the method body is not among the source files; the spec's §3 describes
it). -/
def Container.DisconnectNetwork (c : Container) (networkID : String) :
    Except String Container :=
  if networkID ∈ c.networks then
    .ok { c with networks := c.networks.filter (fun n => n ≠ networkID) }
  else
    .error ("container not connected to network")

/-- The in-process entity store: the authoritative record of containers,
networks and volumes. -/
structure DB where
  containers : List Container
  networks : List Network
  volumes : List Volume
deriving Repr, DecidableEq

/-- Modelled from the spec: `GetVolumeByName` is an exact-name lookup
(§4.1 `GetByName(name) → entity | NotFound`, exact match only). -/
def getVolumeByName (db : DB) (name : String) : Option Volume :=
  db.volumes.find? (fun v => v.name == name)

/-- Modelled from the spec: `GetVolumeByNameOrID` first attempts an exact ID
match, then an exact name match (§4.1 `GetByNameOrID`). -/
def getVolumeByNameOrID (db : DB) (key : String) : Option Volume :=
  match db.volumes.find? (fun v => v.id == key) with
  | some v => some v
  | none => db.volumes.find? (fun v => v.name == key)

/-- Modelled from the spec: `GetNetworkByNameOrID`, ID before name (§4.1). -/
def getNetworkByNameOrID (db : DB) (key : String) : Option Network :=
  match db.networks.find? (fun n => n.id == key) with
  | some n => some n
  | none => db.networks.find? (fun n => n.name == key)

/-- Modelled from the spec: `GetContainerByNameOrID`, ID before name (§4.1). -/
def getContainerByNameOrID (db : DB) (key : String) : Option Container :=
  match db.containers.find? (fun c => c.id == key) with
  | some c => some c
  | none => db.containers.find? (fun c => c.name == key)

/-- Modelled from the spec: `SaveContainer` persists a container entity —
the stored instance with the same identity is replaced (§4.1 `Save`). -/
def saveContainer (db : DB) (t : Container) : DB :=
  if db.containers.any (fun c => c.id == t.id) then
    { db with containers := db.containers.map (fun c => if c.id == t.id then t else c) }
  else
    { db with containers := db.containers ++ [t] }

/-- Modelled from the spec: `SaveVolume` persists a volume entity (§4.1). -/
def saveVolume (db : DB) (v : Volume) : DB :=
  if db.volumes.any (fun w => w.id == v.id) then
    { db with volumes := db.volumes.map (fun w => if w.id == v.id then v else w) }
  else
    { db with volumes := db.volumes ++ [v] }

/-- Modelled from the spec: `DeleteVolume` on the store removes the entity
with the given identity (§4.1 `Delete`). -/
def dbDeleteVolume (db : DB) (v : Volume) : DB :=
  { db with volumes := db.volumes.filter (fun w => w.id ≠ v.id) }

/-- Modelled from the spec: `DeleteNetwork` on the store removes the entity
with the given identity (§4.1 `Delete`). -/
def dbDeleteNetwork (db : DB) (n : Network) : DB :=
  { db with networks := db.networks.filter (fun m => m.id ≠ n.id) }

/-- Embedding of `getContainersInNetwork` of
`src/internal/server/routes/libpod/networks.go`: scan all containers and
keep those whose membership set contains the network's ID. -/
def getContainersInNetwork (db : DB) (netw : Network) : List Container :=
  db.containers.filter (fun tainr => netw.id ∈ tainr.networks)

/-- The regular-expression capability consumed by `nameMatch`: Go's
`regexp.MatchString(pattern, input)` is an external collaborator and is
passed as an oracle returning either the match verdict or a compile
error. -/
def RegexOracle : Type := String → String → Except String Bool

/-- Embedding of `(*Volume).nameMatch` of `src/unnamed/part_001`
(types/volume.go): exact-equality fast path, then fall back to the regular
expression oracle; an oracle error is surfaced as `(false, some err)`,
mirroring the Go `(false, err)` return. -/
def nameMatch (re : RegexOracle) (name key : String) : Bool × Option String :=
  if name == key then (true, none)
  else
    match re key name with
    | .error e => (false, some e)
    | .ok m => (m, none)

/-- Embedding of `(*Volume).Match` of `src/unnamed/part_001`
(types/volume.go): dispatch on the filter type — `name` via `nameMatch`,
`driver` by exact equality, any type other than `label` matches
automatically, and `label` requires the key to be present with the given
value. -/
def Volume.Match (re : RegexOracle) (v : Volume) (typ key val : String) :
    Bool × Option String :=
  if typ == "name" then nameMatch re v.name key
  else if typ == "driver" then (v.driver == key, none)
  else if typ != "label" then (true, none)
  else
    match v.labels.lookup key with
    | none => (false, none)
    | some vv => (vv == val, none)

/-- Modelled from the spec: a fragment of Go's `regexp` matching — literal
characters, `.` and postfix `*` — sufficient for the spec's example pattern
`my.*`.  `reMatchHereF` matches a pattern against a prefix of the input;
the `Nat` argument is structural fuel. -/
def reMatchHereF : Nat → List Char → List Char → Bool
  | 0, _, _ => false
  | _ + 1, [], _ => true
  | fuel + 1, p :: ps, s =>
    match ps with
    | '*' :: ps2 =>
      reMatchHereF fuel ps2 s ||
        (match s with
         | [] => false
         | c :: cs => (p == '.' || p == c) && reMatchHereF fuel (p :: ps) cs)
    | _ =>
      match s with
      | [] => false
      | c :: cs => (p == '.' || p == c) && reMatchHereF fuel ps cs

/-- Modelled from the spec: unanchored search, as Go's `MatchString`
matches anywhere in the input. -/
def reSearch (p : List Char) : List Char → Bool
  | [] => reMatchHereF (p.length + 1) p []
  | c :: cs =>
    reMatchHereF (2 * (c :: cs).length + p.length + 1) p (c :: cs) || reSearch p cs

/-- Modelled from the spec: a concrete instance of the regular-expression
oracle built from the mini engine (patterns in the supported fragment never
fail to compile). -/
def goRegexMatch : RegexOracle :=
  fun pattern input => .ok (reSearch pattern.data input.data)

/-- Result of the orchestration platform's create call for a storage claim,
as distinguished by the Go code via `errors.IsAlreadyExists`. -/
inductive K8sCreateResult where
  | created
  | alreadyExists
  | failed (msg : String)
deriving Repr, DecidableEq

/-- Result of the orchestration platform's delete call for a storage claim,
as distinguished by the Go code via `errors.IsNotFound`. -/
inductive K8sDeleteResult where
  | deleted
  | notFound
  | failed (msg : String)
deriving Repr, DecidableEq

/-- Embedding of `(*instance).getVolumePVCName` of `src/unnamed/part_001`
(backend): a deterministic PVC name built from the fixed prefix string
`kubedock-vol-`, the sanitized volume name, and truncation to 63
characters.  The sanitizer `toKubernetesName` is not among the source
files and is abstracted as the function argument `toK`. -/
def getVolumePVCName (toK : String → String) (name : String) : String :=
  let n := "kubedock-vol-" ++ toK name
  if n.length > 63 then strTake n 63 else n

/-- Embedding of `(*instance).CreateVolume` of `src/unnamed/part_001`:
issue a create for the deterministically named claim against the platform
(passed as the response function `create`); a `failed` response is wrapped
and returned, `created` and `alreadyExists` both succeed, and on success the
volume's mount path is set to the fixed prefix plus the volume name.  The
claim's labels/annotations/size/access-mode payload has no bearing on the
returned value and is elided. -/
def CreateVolume (toK : String → String) (create : String → K8sCreateResult)
    (vol : Volume) : Except String Volume :=
  let pvcName := getVolumePVCName toK vol.name
  match create pvcName with
  | .failed m => .error ("failed to create PVC for volume " ++ vol.name ++ ": " ++ m)
  | _ => .ok { vol with mountpoint := "/var/lib/kubedock/volumes/" ++ vol.name }

/-- Embedding of `(*instance).DeleteVolume` of `src/unnamed/part_001`:
issue a delete for the deterministically named claim; a `notFound`
response is not an error. -/
def DeleteVolume (toK : String → String) (del : String → K8sDeleteResult)
    (vol : Volume) : Except String Unit :=
  let pvcName := getVolumePVCName toK vol.name
  match del pvcName with
  | .failed m => .error ("failed to delete PVC for volume " ++ vol.name ++ ": " ++ m)
  | _ => .ok ()

/-- Outcome of a volume-create handler: HTTP status, successor store state,
the volume rendered in the response body (when any), and whether the
backend `CreateVolume` call was performed (the explicit record of the
external side effect). -/
structure VolumeCreateOutcome where
  status : Nat
  db : DB
  body : Option Volume
  backendCalled : Bool
deriving Repr, DecidableEq

/-- Embedding of `VolumeCreate` of
`src/internal/server/routes/docker/volumes.go`: default the driver to
`local`, return the existing volume when the name is already present
(without calling the backend), otherwise create the backend claim and save
the new entity.  Identity assignment inside `SaveVolume` is outside the
sources and left as the empty identity. -/
def dockerVolumeCreate (db : DB) (toK : String → String)
    (create : String → K8sCreateResult) (reqName reqDriver : String)
    (reqLabels : List (String × String)) : VolumeCreateOutcome :=
  let driver := if reqDriver == "" then "local" else reqDriver
  match getVolumeByName db reqName with
  | some existing => ⟨statusCreated, db, some existing, false⟩
  | none =>
    let vol : Volume :=
      { id := "", shortID := "", name := reqName, driver := driver,
        labels := reqLabels, mountpoint := "" }
    match CreateVolume toK create vol with
    | .error _ => ⟨statusInternalServerError, db, none, true⟩
    | .ok vol2 => ⟨statusCreated, saveVolume db vol2, some vol2, true⟩

/-- Embedding of `VolumeCreate` of
`src/internal/server/routes/libpod/volumes.go`; its handler body is
line-for-line the same as the Docker-dialect one up to JSON rendering. -/
def libpodVolumeCreate (db : DB) (toK : String → String)
    (create : String → K8sCreateResult) (reqName reqDriver : String)
    (reqLabels : List (String × String)) : VolumeCreateOutcome :=
  let driver := if reqDriver == "" then "local" else reqDriver
  match getVolumeByName db reqName with
  | some existing => ⟨statusCreated, db, some existing, false⟩
  | none =>
    let vol : Volume :=
      { id := "", shortID := "", name := reqName, driver := driver,
        labels := reqLabels, mountpoint := "" }
    match CreateVolume toK create vol with
    | .error _ => ⟨statusInternalServerError, db, none, true⟩
    | .ok vol2 => ⟨statusCreated, saveVolume db vol2, some vol2, true⟩

/-- Embedding of `VolumeDelete` of
`src/internal/server/routes/docker/volumes.go`: resolve the volume, call
the backend delete whose failure is only logged (`klog.Warningf`), then
delete from the entity store.  The store delete's own fallible result is
abstracted as the predicate `dbDelOk` (the store implementation is not
among the sources). -/
def dockerVolumeDelete (db : DB) (toK : String → String)
    (del : String → K8sDeleteResult) (dbDelOk : Volume → Bool)
    (idParam : String) : Nat × DB :=
  match getVolumeByNameOrID db idParam with
  | none => (statusNotFound, db)
  | some vol =>
    let _backendResult := DeleteVolume toK del vol
    if dbDelOk vol then (statusNoContent, dbDeleteVolume db vol)
    else (statusNotFound, db)

/-- One iteration of `VolumesPrune` of
`src/internal/server/routes/docker/volumes.go`: call the backend delete
(failures only logged and discarded), delete from the store (failures only
logged, the volume is then skipped in the report), and append the name of
a store-deleted volume to the report. -/
def dockerVolumesPruneStep (toK : String → String)
    (del : String → K8sDeleteResult) (dbDelOk : Volume → Bool)
    (acc : DB × List String) (vol : Volume) : DB × List String :=
  let _backendResult := DeleteVolume toK del vol
  if dbDelOk vol then (dbDeleteVolume acc.1 vol, acc.2 ++ [vol.name])
  else (acc.1, acc.2)

/-- Fold of `dockerVolumesPruneStep` over the whole volume list, answering
200 with the names of the store-deleted volumes and `SpaceReclaimed`
fixed to 0. -/
def dockerVolumesPrune (db : DB) (toK : String → String)
    (del : String → K8sDeleteResult) (dbDelOk : Volume → Bool) :
    Nat × DB × List String × Nat :=
  let r := db.volumes.foldl (dockerVolumesPruneStep toK del dbDelOk) (db, ([] : List String))
  (statusOK, r.1, r.2, 0)

/-- One iteration of `VolumePrune` of
`src/internal/server/routes/libpod/volumes.go`: as the Docker dialect, but
the report entry is the `(Id, Size)` pair with `Size` fixed to 0. -/
def libpodVolumePruneStep (toK : String → String)
    (del : String → K8sDeleteResult) (dbDelOk : Volume → Bool)
    (acc : DB × List (String × Nat)) (vol : Volume) : DB × List (String × Nat) :=
  let _backendResult := DeleteVolume toK del vol
  if dbDelOk vol then (dbDeleteVolume acc.1 vol, acc.2 ++ [(vol.id, 0)])
  else (acc.1, acc.2)

/-- Embedding of `VolumePrune` of
`src/internal/server/routes/libpod/volumes.go`: same sweep as the Docker
dialect; the report lists `(Id, Size)` pairs with `Size` fixed to 0. -/
def libpodVolumePrune (db : DB) (toK : String → String)
    (del : String → K8sDeleteResult) (dbDelOk : Volume → Bool) :
    Nat × DB × List (String × Nat) :=
  let r := db.volumes.foldl (libpodVolumePruneStep toK del dbDelOk)
    (db, ([] : List (String × Nat)))
  (statusOK, r.1, r.2)

/-- Embedding of `NetworkDelete` of
`src/internal/server/routes/libpod/networks.go`: not-found on a failed
lookup, 403 Forbidden for a predefined network, 409 Conflict when any
container is a member, otherwise delete from the store and answer 200. -/
def NetworkDelete (db : DB) (idParam : String) : Nat × DB :=
  match getNetworkByNameOrID db idParam with
  | none => (statusNotFound, db)
  | some netw =>
    if netw.isPredefined then (statusForbidden, db)
    else if (getContainersInNetwork db netw).length != 0 then (statusConflict, db)
    else (statusOK, dbDeleteNetwork db netw)

/-- One iteration of the alias-merge loop of `NetworkConnect`
(`src/internal/server/routes/libpod/networks.go`, lines 166-172): the state
is the pair (alias list being built, key set of the `done` map); the
incoming alias is lower-cased and appended to both when not already a key
of `done`. -/
def aliasStep (acc : List String × List String) (a : String) :
    List String × List String :=
  let al := strToLower a
  if al ∈ acc.2 then acc else (acc.1 ++ [al], acc.2 ++ [al])

/-- The complete alias merge of `NetworkConnect`: the `done` map is seeded
with the container's stored aliases (verbatim, lines 162-165), then each
requested alias is processed by `aliasStep`. -/
def connectAliases (stored : List String) (aliases : List String) : List String :=
  (aliases.foldl aliasStep (stored, stored)).1

/-- Embedding of `NetworkConnect` of
`src/internal/server/routes/libpod/networks.go`: resolve network and
container, add membership via `ConnectNetwork`, merge the requested
aliases, persist the container. -/
def NetworkConnect (db : DB) (idParam containerRef : String)
    (aliases : List String) : Nat × DB :=
  match getNetworkByNameOrID db idParam with
  | none => (statusNotFound, db)
  | some netw =>
    match getContainerByNameOrID db containerRef with
    | none => (statusNotFound, db)
    | some tainr =>
      let t1 := tainr.ConnectNetwork netw.id
      let t2 := { t1 with networkAliases := connectAliases t1.networkAliases aliases }
      (statusOK, saveContainer db t2)

/-- Embedding of `NetworkDisconnect` of
`src/internal/server/routes/libpod/networks.go`: resolve network and
container, answer 500 for a predefined network, otherwise remove
membership (404 when the container was not a member) and persist. -/
def NetworkDisconnect (db : DB) (idParam containerRef : String) : Nat × DB :=
  match getNetworkByNameOrID db idParam with
  | none => (statusNotFound, db)
  | some netw =>
    match getContainerByNameOrID db containerRef with
    | none => (statusNotFound, db)
    | some tainr =>
      if netw.isPredefined then (statusInternalServerError, db)
      else
        match tainr.DisconnectNetwork netw.id with
        | .error _ => (statusNotFound, db)
        | .ok t2 => (statusOK, saveContainer db t2)

/-- One iteration of `NetworkPrune` of
`src/internal/server/routes/libpod/networks.go` (the sweep silently skips
predefined networks and networks with at least one member, deleting the
rest and reporting them). -/
def networkPruneStep (acc : DB × List Network) (netw : Network) : DB × List Network :=
  if netw.isPredefined || (getContainersInNetwork acc.1 netw).length != 0 then acc
  else (dbDeleteNetwork acc.1 netw, acc.2 ++ [netw])

/-- Fold of `networkPruneStep` over the network list snapshot, answering
200 with the pruned networks. -/
def NetworkPrune (db : DB) : Nat × DB × List Network :=
  let r := db.networks.foldl networkPruneStep (db, ([] : List Network))
  (statusOK, r.1, r.2)

/-- Specification-level description of the aliases freshly appended by the
alias merge: the requested aliases in order, lower-cased, each kept only
when not already among `done` (the stored aliases, verbatim) nor among the
earlier kept ones.  Used to state the amended de-duplication claim and
proved equal to what the code's fold appends. -/
def dedupLowerNew (done : List String) : List String → List String
  | [] => []
  | a :: rest =>
    let al := strToLower a
    if al ∈ done then dedupLowerNew done rest
    else al :: dedupLowerNew (done ++ [al]) rest

/-- The alias-merge fold keeps its two components in lock step and appends
exactly the `dedupLowerNew` entries to both. -/
theorem aliasFold_eq (A : List String) : ∀ res done : List String,
    A.foldl aliasStep (res, done) =
      (res ++ dedupLowerNew done A, done ++ dedupLowerNew done A) := by
  induction A with
  | nil => intro res done; simp [dedupLowerNew]
  | cons a rest ih =>
    intro res done
    simp only [List.foldl_cons, aliasStep, dedupLowerNew]
    by_cases h : strToLower a ∈ done
    · simp [h, ih]
    · simp [h, ih, List.append_assoc]

/-- The alias list after the merge is the stored list followed by the
freshly de-duplicated lower-cased requests. -/
theorem connectAliases_eq (stored A : List String) :
    connectAliases stored A = stored ++ dedupLowerNew stored A := by
  simp [connectAliases, aliasFold_eq]

/-- Every freshly appended alias is absent from the seed set and is the
lower-cased form of one of the requested aliases. -/
theorem mem_dedupLowerNew (A : List String) : ∀ (done : List String) (b : String),
    b ∈ dedupLowerNew done A → b ∉ done ∧ ∃ a ∈ A, b = strToLower a := by
  induction A with
  | nil => intro done b h; simp [dedupLowerNew] at h
  | cons a rest ih =>
    intro done b h
    simp only [dedupLowerNew] at h
    by_cases hm : strToLower a ∈ done
    · rw [if_pos hm] at h
      obtain ⟨hb, a2, ha2, he⟩ := ih done b h
      exact ⟨hb, a2, List.mem_cons_of_mem _ ha2, he⟩
    · rw [if_neg hm] at h
      rcases List.mem_cons.mp h with he | ht
      · subst he
        exact ⟨hm, a, List.mem_cons_self _ _, rfl⟩
      · obtain ⟨hb, a2, ha2, he⟩ := ih _ b ht
        exact ⟨fun hc => hb (List.mem_append_left _ hc), a2,
          List.mem_cons_of_mem _ ha2, he⟩

/-- The lower-cased form of every requested alias occurs in the merged
list. -/
theorem toLower_mem_dedupLowerNew (A : List String) : ∀ (done : List String) (a : String),
    a ∈ A → strToLower a ∈ done ++ dedupLowerNew done A := by
  induction A with
  | nil => intro done a h; simp at h
  | cons x rest ih =>
    intro done a h
    simp only [dedupLowerNew]
    by_cases hm : strToLower x ∈ done
    · rw [if_pos hm]
      rcases List.mem_cons.mp h with he | ht
      · subst he; exact List.mem_append_left _ hm
      · exact ih done a ht
    · rw [if_neg hm]
      rcases List.mem_cons.mp h with he | ht
      · subst he
        exact List.mem_append_right _ (List.mem_cons_self _ _)
      · have hrec := ih (done ++ [strToLower x]) a ht
        simpa [List.append_assoc] using hrec

/-- The freshly appended aliases are pairwise distinct. -/
theorem dedupLowerNew_nodup (A : List String) : ∀ done : List String,
    (dedupLowerNew done A).Nodup := by
  induction A with
  | nil => intro done; simp [dedupLowerNew]
  | cons a rest ih =>
    intro done
    simp only [dedupLowerNew]
    by_cases hm : strToLower a ∈ done
    · rw [if_pos hm]; exact ih done
    · rw [if_neg hm]
      refine List.nodup_cons.mpr ⟨fun hc => ?_, ih _⟩
      exact (mem_dedupLowerNew rest _ _ hc).1
        (List.mem_append_right _ (List.mem_cons_self _ _))

/-- Loop invariant of the network prune sweep: the reported list collects
exactly the networks passing the deletability test (computed against the
unchanging container population), the container population is preserved,
and a network whose identity differs from every deletable network of the
remaining work list survives in the store. -/
theorem networkPrune_loop (C : List Container) (todo : List Network) :
    ∀ (dbA : DB) (acc : List Network), dbA.containers = C →
    (todo.foldl networkPruneStep (dbA, acc)).2 =
      acc ++ todo.filter
        (fun n => !(n.isPredefined || (C.filter (fun t => n.id ∈ t.networks)).length != 0)) ∧
    (todo.foldl networkPruneStep (dbA, acc)).1.containers = C ∧
    (∀ m : Network, m ∈ dbA.networks →
      (∀ d ∈ todo,
        (!(d.isPredefined || (C.filter (fun t => d.id ∈ t.networks)).length != 0)) = true →
        d.id ≠ m.id) →
      m ∈ (todo.foldl networkPruneStep (dbA, acc)).1.networks) := by
  induction todo with
  | nil =>
    intro dbA acc hC
    refine ⟨by simp, hC, ?_⟩
    intro m hm _
    simpa using hm
  | cons n rest ih =>
    intro dbA acc hC
    have hcn : getContainersInNetwork dbA n = C.filter (fun t => n.id ∈ t.networks) := by
      simp [getContainersInNetwork, hC]
    by_cases hcond : (n.isPredefined || (C.filter (fun t => n.id ∈ t.networks)).length != 0) = true
    · have hstep : networkPruneStep (dbA, acc) n = (dbA, acc) := by
        simp only [networkPruneStep, hcn]
        rw [if_pos hcond]
      obtain ⟨h1, h2, h3⟩ := ih dbA acc hC
      refine ⟨?_, ?_, ?_⟩
      · simp only [List.foldl_cons, hstep]
        rw [h1, List.filter_cons, if_neg (by simp [hcond])]
      · simpa [hstep] using h2
      · intro m hm hd
        simp only [List.foldl_cons, hstep]
        exact h3 m hm (fun d hdr => hd d (List.mem_cons_of_mem _ hdr))
    · have hstep : networkPruneStep (dbA, acc) n = (dbDeleteNetwork dbA n, acc ++ [n]) := by
        simp only [networkPruneStep, hcn]
        rw [if_neg hcond]
      have hcf : (n.isPredefined ||
          (C.filter (fun t => n.id ∈ t.networks)).length != 0) = false :=
        eq_false_of_ne_true hcond
      have hC2 : (dbDeleteNetwork dbA n).containers = C := by
        simpa [dbDeleteNetwork] using hC
      obtain ⟨h1, h2, h3⟩ := ih (dbDeleteNetwork dbA n) (acc ++ [n]) hC2
      refine ⟨?_, ?_, ?_⟩
      · simp only [List.foldl_cons, hstep]
        rw [h1, List.filter_cons, if_pos (by simp [hcf])]
        simp [List.append_assoc]
      · simpa [hstep] using h2
      · intro m hm hd
        have hne : n.id ≠ m.id := by
          refine hd n (List.mem_cons_self _ _) ?_
          simp [hcf]
        have hm2 : m ∈ (dbDeleteNetwork dbA n).networks := by
          simp only [dbDeleteNetwork]
          exact List.mem_filter.mpr ⟨hm, by
            simpa [decide_eq_true_iff] using fun he => hne he.symm⟩
        simp only [List.foldl_cons, hstep]
        exact h3 m hm2 (fun d hdr => hd d (List.mem_cons_of_mem _ hdr))

/-- Loop invariant of the Docker-dialect volume prune sweep: the reported
name list collects exactly the volumes whose entity-store delete
succeeded, regardless of the backend responses. -/
theorem dockerVolumesPrune_loop (toK : String → String)
    (del : String → K8sDeleteResult) (dbDelOk : Volume → Bool)
    (vols : List Volume) : ∀ (dbA : DB) (acc : List String),
    (vols.foldl (dockerVolumesPruneStep toK del dbDelOk) (dbA, acc)).2 =
      acc ++ (vols.filter (fun v => dbDelOk v)).map Volume.name := by
  induction vols with
  | nil => intro dbA acc; simp
  | cons v rest ih =>
    intro dbA acc
    simp only [List.foldl_cons, dockerVolumesPruneStep]
    by_cases h : dbDelOk v
    · simp [h, ih, List.filter_cons, List.append_assoc]
    · simp [h, ih, List.filter_cons]

/-- Loop invariant of the libpod-dialect volume prune sweep: the report
collects the `(Id, 0)` pairs of the volumes whose entity-store delete
succeeded. -/
theorem libpodVolumePrune_loop (toK : String → String)
    (del : String → K8sDeleteResult) (dbDelOk : Volume → Bool)
    (vols : List Volume) : ∀ (dbA : DB) (acc : List (String × Nat)),
    (vols.foldl (libpodVolumePruneStep toK del dbDelOk) (dbA, acc)).2 =
      acc ++ (vols.filter (fun v => dbDelOk v)).map (fun v => (v.id, 0)) := by
  induction vols with
  | nil => intro dbA acc; simp
  | cons v rest ih =>
    intro dbA acc
    simp only [List.foldl_cons, libpodVolumePruneStep]
    by_cases h : dbDelOk v
    · simp [h, ih, List.filter_cons, List.append_assoc]
    · simp [h, ih, List.filter_cons]

/-- Character-level length of a truncation. -/
theorem strTake_length (s : String) (n : Nat) :
    (strTake s n).length = min n s.length := by
  rw [show (strTake s n).length = (s.data.take n).length from rfl, List.length_take]
  rfl

/-- `ConnectNetwork` never touches the alias list. -/
theorem connectNetwork_aliases (c : Container) (nid : String) :
    (c.ConnectNetwork nid).networkAliases = c.networkAliases := by
  unfold Container.ConnectNetwork
  split <;> rfl

/-- C2: volume create is idempotent by name — when the store already holds
a volume under the requested name, both the Docker-dialect and the
libpod-dialect create handlers answer 201 with that existing volume,
leave the store unchanged, and perform no backend `CreateVolume` call. -/
theorem volume_create_idempotent_by_name (db : DB) (toK : String → String)
    (create : String → K8sCreateResult) (reqName reqDriver : String)
    (reqLabels : List (String × String)) (v : Volume)
    (h : getVolumeByName db reqName = some v) :
    dockerVolumeCreate db toK create reqName reqDriver reqLabels =
      ⟨statusCreated, db, some v, false⟩ ∧
    libpodVolumeCreate db toK create reqName reqDriver reqLabels =
      ⟨statusCreated, db, some v, false⟩ := by
  constructor <;> simp [dockerVolumeCreate, libpodVolumeCreate, h]

/-- Concrete instance of the idempotent create-by-name theorem: a second
create of the volume named `data` returns the stored volume untouched with
no backend call. -/
theorem volume_create_idempotent_by_name_witness :
    getVolumeByName ⟨[], [], [⟨"v1", "v1s", "data", "local", [], ""⟩]⟩ "data" =
      some ⟨"v1", "v1s", "data", "local", [], ""⟩ ∧
    dockerVolumeCreate ⟨[], [], [⟨"v1", "v1s", "data", "local", [], ""⟩]⟩
        (fun s => s) (fun _ => .created) "data" "" [] =
      ⟨statusCreated, ⟨[], [], [⟨"v1", "v1s", "data", "local", [], ""⟩]⟩,
        some ⟨"v1", "v1s", "data", "local", [], ""⟩, false⟩ :=
  ⟨by decide,
    (volume_create_idempotent_by_name _ (fun s => s) (fun _ => .created) "data" "" []
      _ (by decide)).1⟩

/-- C3: the backend volume create treats an `alreadyExists` platform
response as success, every successful return carries the mount path
`/var/lib/kubedock/volumes/` + name, and every other platform failure is
propagated to the caller. -/
theorem create_volume_already_exists_converges (toK : String → String)
    (create : String → K8sCreateResult) (vol : Volume) :
    (create (getVolumePVCName toK vol.name) = .alreadyExists →
      CreateVolume toK create vol =
        .ok { vol with mountpoint := "/var/lib/kubedock/volumes/" ++ vol.name }) ∧
    (∀ v2, CreateVolume toK create vol = .ok v2 →
      v2.mountpoint = "/var/lib/kubedock/volumes/" ++ v2.name) ∧
    (∀ m, create (getVolumePVCName toK vol.name) = .failed m →
      CreateVolume toK create vol =
        .error ("failed to create PVC for volume " ++ vol.name ++ ": " ++ m)) := by
  refine ⟨?_, ?_, ?_⟩
  · intro h
    simp [CreateVolume, h]
  · intro v2 h
    simp only [CreateVolume] at h
    cases hc : create (getVolumePVCName toK vol.name) with
    | created =>
      rw [hc] at h
      simp only [Except.ok.injEq] at h
      rw [← h]
    | alreadyExists =>
      rw [hc] at h
      simp only [Except.ok.injEq] at h
      rw [← h]
    | failed m =>
      rw [hc] at h
      simp at h
  · intro m h
    simp [CreateVolume, h]

/-- Concrete instance of the convergence theorem: an `alreadyExists`
response still yields success with the derived mount path. -/
theorem create_volume_already_exists_converges_witness :
    ((fun _ => K8sCreateResult.alreadyExists)
        (getVolumePVCName (fun s => s) ("cache" : String)) = .alreadyExists) ∧
    CreateVolume (fun s => s) (fun _ => K8sCreateResult.alreadyExists)
        ⟨"v1", "v1s", "cache", "local", [], ""⟩ =
      .ok ⟨"v1", "v1s", "cache", "local", [], "/var/lib/kubedock/volumes/cache"⟩ :=
  ⟨rfl,
    (create_volume_already_exists_converges (fun s => s)
      (fun _ => K8sCreateResult.alreadyExists) ⟨"v1", "v1s", "cache", "local", [], ""⟩).1 rfl⟩

/-- C8: the external claim name is a pure deterministic, length-bounded
function of the volume's name — at most 63 characters, truncated when the
prefixed form exceeds that — and both the backend create and delete
recompute it rather than read a stored field: their outcome depends on the
platform's response at exactly that recomputed name. -/
theorem pvc_name_deterministic_bounded (toK : String → String) (nm : String)
    (v1 v2 vol : Volume) (create1 create2 : String → K8sCreateResult)
    (del1 del2 : String → K8sDeleteResult) :
    (getVolumePVCName toK nm).length ≤ 63 ∧
    (v1.name = v2.name →
      getVolumePVCName toK v1.name = getVolumePVCName toK v2.name) ∧
    (("kubedock-vol-" ++ toK nm).length > 63 →
      getVolumePVCName toK nm = strTake ("kubedock-vol-" ++ toK nm) 63) ∧
    (create1 (getVolumePVCName toK vol.name) = create2 (getVolumePVCName toK vol.name) →
      CreateVolume toK create1 vol = CreateVolume toK create2 vol) ∧
    (del1 (getVolumePVCName toK vol.name) = del2 (getVolumePVCName toK vol.name) →
      DeleteVolume toK del1 vol = DeleteVolume toK del2 vol) := by
  refine ⟨?_, ?_, ?_, ?_, ?_⟩
  · simp only [getVolumePVCName]
    by_cases h : ("kubedock-vol-" ++ toK nm).length > 63
    · rw [if_pos h, strTake_length]
      omega
    · rw [if_neg h]
      omega
  · intro h
    rw [h]
  · intro h
    simp only [getVolumePVCName]
    rw [if_pos h]
  · intro h
    simp only [CreateVolume]
    rw [h]
  · intro h
    simp only [DeleteVolume]
    rw [h]

/-- Concrete instance of the deterministic naming theorem: a 60-character
volume name makes the prefixed form exceed 63 characters and the name is
truncated to exactly 63 characters. -/
theorem pvc_name_deterministic_bounded_witness :
    (("kubedock-vol-" ++
        (fun s => s) ("aaaaaaaaaaaaaaaaaaaaaaaaaaaaaaaaaaaaaaaaaaaaaaaaaaaaaaaaaaaa" : String)).length
      > 63) ∧
    getVolumePVCName (fun s => s)
        "aaaaaaaaaaaaaaaaaaaaaaaaaaaaaaaaaaaaaaaaaaaaaaaaaaaaaaaaaaaa" =
      strTake
        ("kubedock-vol-" ++ "aaaaaaaaaaaaaaaaaaaaaaaaaaaaaaaaaaaaaaaaaaaaaaaaaaaaaaaaaaaa")
        63 :=
  ⟨by decide,
    (pvc_name_deterministic_bounded (fun s => s)
      "aaaaaaaaaaaaaaaaaaaaaaaaaaaaaaaaaaaaaaaaaaaaaaaaaaaaaaaaaaaa"
      ⟨"", "", "", "", [], ""⟩ ⟨"", "", "", "", [], ""⟩ ⟨"", "", "", "", [], ""⟩
      (fun _ => .created) (fun _ => .created)
      (fun _ => .deleted) (fun _ => .deleted)).2.2.1 (by decide)⟩

/-- C9: the backend volume delete treats a `notFound` platform response as
success; in the Docker-dialect delete endpoint the backend result is
discarded (the handler's outcome is independent of it) and the
entity-store deletion proceeds, answering 204. -/
theorem delete_volume_absent_ok (toK : String → String)
    (del del2 : String → K8sDeleteResult) (vol v : Volume) (db : DB)
    (dbDelOk : Volume → Bool) (idParam : String) :
    (del (getVolumePVCName toK vol.name) = .notFound →
      DeleteVolume toK del vol = .ok ()) ∧
    (dockerVolumeDelete db toK del dbDelOk idParam =
      dockerVolumeDelete db toK del2 dbDelOk idParam) ∧
    (getVolumeByNameOrID db idParam = some v → dbDelOk v = true →
      dockerVolumeDelete db toK del dbDelOk idParam =
        (statusNoContent, dbDeleteVolume db v)) := by
  refine ⟨?_, rfl, ?_⟩
  · intro h
    simp [DeleteVolume, h]
  · intro h1 h2
    simp [dockerVolumeDelete, h1, h2]

/-- Concrete instance of the absent-resource delete theorem: the endpoint
answers 204 on a store with the single volume `cache` even when the
platform reports the claim as absent. -/
theorem delete_volume_absent_ok_witness :
    getVolumeByNameOrID ⟨[], [], [⟨"v1", "v1s", "cache", "local", [], ""⟩]⟩ "cache" =
      some ⟨"v1", "v1s", "cache", "local", [], ""⟩ ∧
    (fun _ : Volume => true) ⟨"v1", "v1s", "cache", "local", [], ""⟩ = true ∧
    dockerVolumeDelete ⟨[], [], [⟨"v1", "v1s", "cache", "local", [], ""⟩]⟩
        (fun s => s) (fun _ => .notFound) (fun _ => true) "cache" =
      (statusNoContent,
        dbDeleteVolume ⟨[], [], [⟨"v1", "v1s", "cache", "local", [], ""⟩]⟩
          ⟨"v1", "v1s", "cache", "local", [], ""⟩) :=
  ⟨by decide, rfl,
    (delete_volume_absent_ok (fun s => s) (fun _ => .notFound) (fun _ => .notFound)
      ⟨"v1", "v1s", "cache", "local", [], ""⟩ ⟨"v1", "v1s", "cache", "local", [], ""⟩
      ⟨[], [], [⟨"v1", "v1s", "cache", "local", [], ""⟩]⟩
      (fun _ => true) "cache").2.2 (by decide) rfl⟩

/-- C10: volume prune sweeps every volume of the entity store with no
unused-by-a-container check (the report is a function of the volume list
alone), lists exactly the volumes whose entity-store deletion succeeded —
backend deletion failures never exclude a volume — and always answers 200
with zero space reclaimed; the libpod dialect reports the same volumes as
`(Id, 0)` pairs. -/
theorem volumes_prune_unconditional_report (db : DB) (toK : String → String)
    (del : String → K8sDeleteResult) (dbDelOk : Volume → Bool) :
    (dockerVolumesPrune db toK del dbDelOk).1 = statusOK ∧
    (dockerVolumesPrune db toK del dbDelOk).2.2.1 =
      (db.volumes.filter (fun v => dbDelOk v)).map Volume.name ∧
    (dockerVolumesPrune db toK del dbDelOk).2.2.2 = 0 ∧
    (libpodVolumePrune db toK del dbDelOk).1 = statusOK ∧
    (libpodVolumePrune db toK del dbDelOk).2.2 =
      (db.volumes.filter (fun v => dbDelOk v)).map (fun v => (v.id, 0)) := by
  refine ⟨rfl, ?_, rfl, rfl, ?_⟩
  · simpa [dockerVolumesPrune] using
      dockerVolumesPrune_loop toK del dbDelOk db.volumes db []
  · simpa [libpodVolumePrune] using
      libpodVolumePrune_loop toK del dbDelOk db.volumes db []

/-- C6: `Match("name", key, "")` matches by exact equality first (fast
path, independent of the regular-expression capability), otherwise
answers exactly what the regular-expression engine answers for the key
against the volume's name — so `myvolume` matches the pattern `my.*` —
and a malformed expression is surfaced as `(false, error)`. -/
theorem volume_name_match_fast_path_regex (re : RegexOracle) (v : Volume)
    (key : String) :
    (v.name = key → v.Match re "name" key "" = (true, none)) ∧
    (v.name ≠ key → ∀ b, re key v.name = .ok b →
      v.Match re "name" key "" = (b, none)) ∧
    (v.name ≠ key → ∀ e, re key v.name = .error e →
      v.Match re "name" key "" = (false, some e)) ∧
    Volume.Match goRegexMatch ⟨"idm", "idm", "myvolume", "local", [], ""⟩
      "name" "my.*" "" = (true, none) := by
  have hdisp : v.Match re "name" key "" = nameMatch re v.name key := rfl
  refine ⟨?_, ?_, ?_, rfl⟩
  · intro h
    rw [hdisp]
    simp [nameMatch, h]
  · intro h b hb
    rw [hdisp]
    simp [nameMatch, h, hb]
  · intro h e he
    rw [hdisp]
    simp [nameMatch, h, he]

/-- Concrete instance of the name-match theorem: `myvolume` against the
non-matching pattern `other` answers `(false, none)` through the
regular-expression fallback. -/
theorem volume_name_match_fast_path_regex_witness :
    ("myvolume" : String) ≠ "other" ∧
    goRegexMatch "other" "myvolume" = .ok false ∧
    Volume.Match goRegexMatch ⟨"idm", "idm", "myvolume", "local", [], ""⟩
      "name" "other" "" = (false, none) :=
  ⟨by decide, rfl,
    (volume_name_match_fast_path_regex goRegexMatch
      ⟨"idm", "idm", "myvolume", "local", [], ""⟩ "other").2.1 (by decide) false rfl⟩

/-- C7: `Match("driver", k, val)` is true exactly when `k` equals the
volume's driver, `Match("label", k, val)` is true exactly when the label
key is present with exactly that value, and every filter type other than
`name`, `driver` and `label` matches automatically with no error. -/
theorem volume_match_driver_label_unknown (re : RegexOracle) (v : Volume)
    (k val : String) :
    ((v.Match re "driver" k val).1 = true ↔ k = v.driver) ∧
    (v.Match re "driver" k val).2 = none ∧
    ((v.Match re "label" k val).1 = true ↔ v.labels.lookup k = some val) ∧
    (v.Match re "label" k val).2 = none ∧
    (∀ t, t ≠ "name" → t ≠ "driver" → t ≠ "label" →
      v.Match re t k val = (true, none)) := by
  have hd : v.Match re "driver" k val = (v.driver == k, none) := rfl
  have hl : v.Match re "label" k val =
      (match v.labels.lookup k with
       | none => (false, none)
       | some vv => (vv == val, none)) := rfl
  refine ⟨?_, ?_, ?_, ?_, ?_⟩
  · rw [hd]
    simp only [beq_iff_eq]
    exact eq_comm
  · rw [hd]
  · rw [hl]
    cases hk : v.labels.lookup k with
    | none => simp
    | some vv => simp
  · rw [hl]
    cases hk : v.labels.lookup k with
    | none => rfl
    | some vv => rfl
  · intro t h1 h2 h3
    simp [Volume.Match, h1, h2, h3]

/-- Concrete instance of the driver/label/unknown theorem: an unrecognized
filter type matches automatically. -/
theorem volume_match_driver_label_unknown_witness :
    ("unknown" : String) ≠ "name" ∧ ("unknown" : String) ≠ "driver" ∧
    ("unknown" : String) ≠ "label" ∧
    Volume.Match goRegexMatch ⟨"idm", "idm", "myvolume", "local", [("env", "test")], ""⟩
      "unknown" "foo" "bar" = (true, none) :=
  ⟨by decide, by decide, by decide,
    (volume_match_driver_label_unknown goRegexMatch
      ⟨"idm", "idm", "myvolume", "local", [("env", "test")], ""⟩ "foo" "bar").2.2.2.2
      "unknown" (by decide) (by decide) (by decide)⟩

/-- C1 (amended): for a predefined network, delete and disconnect both
always fail and leave the store — the network and every container
membership — unchanged; delete reports 403 Forbidden and disconnect
reports 500 InternalServerError (not 409 Conflict). -/
theorem predefined_network_delete_disconnect_rejected (db : DB)
    (idParam containerRef : String) (netw : Network) (tainr : Container)
    (hn : getNetworkByNameOrID db idParam = some netw)
    (hp : netw.isPredefined = true) :
    NetworkDelete db idParam = (statusForbidden, db) ∧
    (getContainerByNameOrID db containerRef = some tainr →
      NetworkDisconnect db idParam containerRef = (statusInternalServerError, db)) := by
  constructor
  · simp [NetworkDelete, hn, hp]
  · intro hc
    simp [NetworkDisconnect, hn, hc, hp]

/-- C1 counterexample: at the predefined network `bridge`, delete answers
403 Forbidden and disconnect answers 500 InternalServerError — neither is
the 409 Conflict the claim states. -/
theorem predefined_network_conflict_cex :
    (NetworkDelete ⟨[], [⟨"n1", "bridge", [], true⟩], []⟩ "bridge").1 =
      statusForbidden ∧
    statusForbidden ≠ statusConflict ∧
    (NetworkDisconnect ⟨[⟨"c1", "cont1", ["n1"], []⟩], [⟨"n1", "bridge", [], true⟩], []⟩
        "bridge" "cont1").1 = statusInternalServerError ∧
    statusInternalServerError ≠ statusConflict :=
  ⟨rfl, by decide, rfl, by decide⟩

/-- Concrete instance of the amended predefined-network theorem. -/
theorem predefined_network_delete_disconnect_rejected_witness :
    getNetworkByNameOrID
        ⟨[⟨"c1", "cont1", ["n1"], []⟩], [⟨"n1", "bridge", [], true⟩], []⟩ "bridge" =
      some ⟨"n1", "bridge", [], true⟩ ∧
    (⟨"n1", "bridge", [], true⟩ : Network).isPredefined = true ∧
    (NetworkDelete ⟨[⟨"c1", "cont1", ["n1"], []⟩], [⟨"n1", "bridge", [], true⟩], []⟩
        "bridge" =
      (statusForbidden,
        ⟨[⟨"c1", "cont1", ["n1"], []⟩], [⟨"n1", "bridge", [], true⟩], []⟩) ∧
      (getContainerByNameOrID
          ⟨[⟨"c1", "cont1", ["n1"], []⟩], [⟨"n1", "bridge", [], true⟩], []⟩ "cont1" =
        some ⟨"c1", "cont1", ["n1"], []⟩ →
        NetworkDisconnect
            ⟨[⟨"c1", "cont1", ["n1"], []⟩], [⟨"n1", "bridge", [], true⟩], []⟩
            "bridge" "cont1" =
          (statusInternalServerError,
            ⟨[⟨"c1", "cont1", ["n1"], []⟩], [⟨"n1", "bridge", [], true⟩], []⟩))) :=
  ⟨by decide, rfl,
    predefined_network_delete_disconnect_rejected
      ⟨[⟨"c1", "cont1", ["n1"], []⟩], [⟨"n1", "bridge", [], true⟩], []⟩
      "bridge" "cont1" ⟨"n1", "bridge", [], true⟩ ⟨"c1", "cont1", ["n1"], []⟩
      (by decide) rfl⟩

/-- C4: an existing network can be deleted exactly when it is not
predefined and no container's membership set (computed by scanning all
containers) contains its ID; with at least one member, delete answers 409
Conflict and the store is unchanged; the prune sweep never errors, reports
exactly the deletable networks, and (with unique network IDs) leaves every
predefined or member-carrying network in the store. -/
theorem network_delete_membership_conflict_prune :
    (∀ (db : DB) (idParam : String) (netw : Network),
      getNetworkByNameOrID db idParam = some netw →
      (((NetworkDelete db idParam).1 = statusOK) ↔
        (netw.isPredefined = false ∧ getContainersInNetwork db netw = [])) ∧
      (netw.isPredefined = false → getContainersInNetwork db netw ≠ [] →
        NetworkDelete db idParam = (statusConflict, db))) ∧
    (∀ db : DB,
      (NetworkPrune db).1 = statusOK ∧
      (NetworkPrune db).2.2 = db.networks.filter
        (fun n => !(n.isPredefined || (getContainersInNetwork db n).length != 0)) ∧
      ((db.networks.map Network.id).Nodup →
        ∀ n ∈ db.networks,
          (n.isPredefined = true ∨ getContainersInNetwork db n ≠ []) →
          n ∈ (NetworkPrune db).2.1.networks)) := by
  constructor
  · intro db idParam netw hn
    constructor
    · by_cases hp : netw.isPredefined = true
      · simp [NetworkDelete, hn, hp, statusForbidden, statusOK]
      · by_cases hm : getContainersInNetwork db netw = []
        · simp [NetworkDelete, hn, hp, hm, statusOK]
        · have hlen : getContainersInNetwork db netw ≠ [] := hm
          simp [NetworkDelete, hn, hp, statusConflict, statusOK,
            List.length_eq_zero, hlen]
    · intro hp hm
      simp [NetworkDelete, hn, hp, List.length_eq_zero, hm]
  · intro db
    have hloop := networkPrune_loop db.containers db.networks db [] rfl
    refine ⟨rfl, ?_, ?_⟩
    · simpa [NetworkPrune, getContainersInNetwork] using hloop.1
    · intro hnodup n hn hcond
      have hsurv := hloop.2.2 n hn
      simp only [NetworkPrune]
      refine hsurv ?_
      intro d hd hkeep hid
      have hdn : d = n := List.inj_on_of_nodup_map hnodup hd hn hid
      subst hdn
      simp only [Bool.not_eq_true', Bool.or_eq_false_iff, bne_eq_false_iff_eq,
        List.length_eq_zero] at hkeep
      rcases hcond with hc | hc
      · rw [hc] at hkeep
        exact Bool.noConfusion hkeep.1
      · exact hc (by simpa [getContainersInNetwork] using hkeep.2)

/-- Concrete instance of the delete/prune membership theorem: deleting a
network with one attached container answers 409 Conflict and leaves the
store unchanged. -/
theorem network_delete_membership_conflict_prune_witness :
    getNetworkByNameOrID ⟨[⟨"c1", "cont1", ["n2"], []⟩], [⟨"n2", "mynet", [], false⟩], []⟩
        "n2" = some ⟨"n2", "mynet", [], false⟩ ∧
    (⟨"n2", "mynet", [], false⟩ : Network).isPredefined = false ∧
    getContainersInNetwork
        ⟨[⟨"c1", "cont1", ["n2"], []⟩], [⟨"n2", "mynet", [], false⟩], []⟩
        ⟨"n2", "mynet", [], false⟩ ≠ [] ∧
    NetworkDelete ⟨[⟨"c1", "cont1", ["n2"], []⟩], [⟨"n2", "mynet", [], false⟩], []⟩
        "n2" =
      (statusConflict,
        ⟨[⟨"c1", "cont1", ["n2"], []⟩], [⟨"n2", "mynet", [], false⟩], []⟩) :=
  ⟨by decide, rfl, by decide,
    (network_delete_membership_conflict_prune.1
      ⟨[⟨"c1", "cont1", ["n2"], []⟩], [⟨"n2", "mynet", [], false⟩], []⟩ "n2"
      ⟨"n2", "mynet", [], false⟩ (by decide)).2 rfl (by decide)⟩

/-- C5 (amended): the alias merge of network connect appends, after the
stored aliases, the lower-cased requested aliases, keeping one only when
it is not already verbatim among the stored aliases nor among the earlier
kept ones — so de-duplication is case-insensitive among the requested
aliases but exact (case-sensitive) against the stored ones; when the
stored aliases are pairwise distinct the merged list stays pairwise
distinct; the spec example `["Web","web","API"]` on an alias-free
container yields exactly `["web","api"]`; and a successful connect stores
the merged list on the container. -/
theorem network_connect_alias_merge (stored A : List String) :
    connectAliases stored A = stored ++ dedupLowerNew stored A ∧
    (∀ a ∈ A, strToLower a ∈ connectAliases stored A) ∧
    (∀ b ∈ dedupLowerNew stored A, b ∉ stored ∧ ∃ a ∈ A, b = strToLower a) ∧
    (stored.Nodup → (connectAliases stored A).Nodup) ∧
    connectAliases [] ["Web", "web", "API"] = ["web", "api"] ∧
    (∀ (db : DB) (idParam containerRef : String) (aliases2 : List String)
      (netw : Network) (tainr : Container),
      getNetworkByNameOrID db idParam = some netw →
      getContainerByNameOrID db containerRef = some tainr →
      NetworkConnect db idParam containerRef aliases2 =
        (statusOK, saveContainer db
          { tainr.ConnectNetwork netw.id with
            networkAliases := connectAliases tainr.networkAliases aliases2 })) := by
  refine ⟨connectAliases_eq stored A, ?_, ?_, ?_, by decide, ?_⟩
  · intro a ha
    rw [connectAliases_eq]
    exact toLower_mem_dedupLowerNew A stored a ha
  · intro b hb
    exact mem_dedupLowerNew A stored b hb
  · intro hs
    rw [connectAliases_eq]
    refine hs.append (dedupLowerNew_nodup A stored) ?_
    intro b hbs hbn
    exact (mem_dedupLowerNew A stored b hbn).1 hbs
  · intro db idParam containerRef aliases2 netw tainr hn hc
    simp [NetworkConnect, hn, hc, connectNetwork_aliases]

/-- C5 counterexample: a container already holding the alias `Web`,
connected with the requested alias `WEB`, ends with the alias list
`["Web", "web"]` — the two entries coincide case-insensitively, so the
merge did not de-duplicate case-insensitively against the stored
aliases. -/
theorem network_connect_alias_merge_cex :
    (NetworkConnect ⟨[⟨"c1", "web1", [], ["Web"]⟩], [⟨"n2", "mynet", [], false⟩], []⟩
        "n2" "c1" ["WEB"]).2.containers.map Container.networkAliases =
      [["Web", "web"]] ∧
    strToLower "Web" = strToLower "web" ∧
    ¬ List.Pairwise (fun a b => strToLower a ≠ strToLower b) ["Web", "web"] :=
  ⟨by decide, by decide, by decide⟩

/-- Concrete instance of the amended alias-merge theorem: the spec's own
example run through the connect handler. -/
theorem network_connect_alias_merge_witness :
    getNetworkByNameOrID ⟨[⟨"c1", "web1", [], []⟩], [⟨"n2", "mynet", [], false⟩], []⟩
        "n2" = some ⟨"n2", "mynet", [], false⟩ ∧
    getContainerByNameOrID ⟨[⟨"c1", "web1", [], []⟩], [⟨"n2", "mynet", [], false⟩], []⟩
        "c1" = some ⟨"c1", "web1", [], []⟩ ∧
    NetworkConnect ⟨[⟨"c1", "web1", [], []⟩], [⟨"n2", "mynet", [], false⟩], []⟩
        "n2" "c1" ["Web", "web", "API"] =
      (statusOK, saveContainer
        ⟨[⟨"c1", "web1", [], []⟩], [⟨"n2", "mynet", [], false⟩], []⟩
        { Container.ConnectNetwork ⟨"c1", "web1", [], []⟩ "n2" with
          networkAliases := connectAliases [] ["Web", "web", "API"] }) :=
  ⟨by decide, by decide,
    (network_connect_alias_merge [] []).2.2.2.2.2
      ⟨[⟨"c1", "web1", [], []⟩], [⟨"n2", "mynet", [], false⟩], []⟩ "n2" "c1"
      ["Web", "web", "API"] ⟨"n2", "mynet", [], false⟩ ⟨"c1", "web1", [], []⟩
      (by decide) (by decide)⟩

end Kubedock
